import Mathlib

/-!
Verification development for the token-creation orchestrator of this
repository.  The authoritative source is the first revision contained in
`src/src/api/create-token.ts` (`createToken` together with the helpers
`getFormattedEndpoint`, `getMetadataPDA` and
`createMetadataInstruction`); the near-duplicate revision
`src/unnamed/part_013` is modelled where a claim refers to its fee
rounding.

Numbers are modelled in exact rational arithmetic (`ℚ`), except where a
claim is specifically about IEEE-754 binary64 behaviour; for that case a
faithful binary64 model (`fl`: round to nearest, ties to even, 53-bit
significand; every value used is in the normal range) is defined below
and evaluated on concrete inputs.

Rational arithmetic inside executable definitions is written with the
helpers `qadd`, `qmul`, `qsub`, `qdivNat`, `qsum` (plain rational
operations, stated through `mkRat` so that concrete values reduce inside
the kernel); the theorems `qadd_eq`, `qmul_eq`, `qsub_eq`, `qdivNat_eq`
and `qsum_eq` below prove them equal to the standard `+`, `*`, `-`, `/`
and `List.sum`.

Solana public keys are modelled as an inductive type `PK`; program
derived addresses (`PublicKey.findProgramAddressSync`) are modelled by
the constructor `PK.pda`, which makes the derivation deterministic and
injective, exactly the property the code relies on.  The two keypairs
generated during a run (`Keypair.generate()` at line 264 of the source,
and the default `keypair = Keypair.generate()` argument of the
spl-token `createMint`, which applies because the caller passes
`undefined` at line 338) are modelled as the distinct constructors
`PK.gen 0` and `PK.gen 1`; distinct randomly generated keys are
distinct with probability 1.

External RPC / wallet / library calls are resolved through an explicit
environment `Env`: each fallible call site of the source has a field
giving its outcome.  The spl-token library calls (`createMint`,
`getOrCreateAssociatedTokenAccount`, `mintTo`) are modelled after their
public signatures and documented behaviour: each sends a transaction
whose fee payer is the `payer` argument the source passes to it (the
generated `mintKeypair`, never the user's wallet).
-/

set_option maxRecDepth 40000

namespace TokenizeFun

/-- Decidable equality of `Except` values, for evaluating run outcomes
on concrete inputs. -/
instance {ε α : Type} [DecidableEq ε] [DecidableEq α] : DecidableEq (Except ε α) := fun x y =>
  match x, y with
  | Except.ok a, Except.ok b =>
    if h : a = b then isTrue (congrArg Except.ok h)
    else isFalse (fun hh => h (Except.ok.inj hh))
  | Except.error a, Except.error b =>
    if h : a = b then isTrue (congrArg Except.error h)
    else isFalse (fun hh => h (Except.error.inj hh))
  | Except.ok _, Except.error _ => isFalse (fun hh => Except.noConfusion hh)
  | Except.error _, Except.ok _ => isFalse (fun hh => Except.noConfusion hh)

/-! ### Kernel-reducible rational arithmetic -/

/-- Rational addition, written through `mkRat` so that concrete values
reduce in the kernel; equal to `+` by `qadd_eq`. -/
def qadd (a b : ℚ) : ℚ :=
  mkRat (a.num * b.den + b.num * a.den) (a.den * b.den)

/-- Rational multiplication through `mkRat`; equal to `*` by
`qmul_eq`. -/
def qmul (a b : ℚ) : ℚ :=
  mkRat (a.num * b.num) (a.den * b.den)

/-- Rational subtraction; equal to `-` by `qsub_eq`. -/
def qsub (a b : ℚ) : ℚ := qadd a (Rat.neg b)

/-- Division of a rational by a natural number; equal to `a / n` by
`qdivNat_eq`. -/
def qdivNat (a : ℚ) (n : ℕ) : ℚ := mkRat a.num (a.den * n)

/-- Sum of a list of rationals via `qadd`; equal to `List.sum` by
`qsum_eq`. -/
def qsum (l : List ℚ) : ℚ := l.foldl qadd 0

/-- Floor of a rational as an integer (`Int.fdiv` is floor division and
the denominator is positive). -/
def ratFloor (q : ℚ) : ℤ := Int.fdiv q.num q.den

/-! ### Data model -/

/-- The three optional authority-revocation flags of the request
(`data.authorities` in `createToken`). -/
structure Authorities where
  freezeAuthority : Bool
  mintAuthority : Bool
  updateAuthority : Bool
deriving DecidableEq

/-- The user-supplied request, `data` of `createToken`
(`src/src/api/create-token.ts` lines 145-158).  `decimals` is a JS
number used as an integer; `supply` is a comma-tolerant numeric string;
`authorities` and `creatorName` are optional. -/
structure TokenData where
  name : String
  symbol : String
  supply : String
  decimals : ℤ
  walletAddress : String
  authorities : Option Authorities
  creatorName : Option String
deriving DecidableEq

/-- JavaScript truthiness of an optional string: `undefined` and the
empty string are falsy.  This is the test `if (data.creatorName)` at
line 193 and `data.creatorName ? ... : undefined` at line 351. -/
def truthy : Option String → Bool
  | none => false
  | some s => !s.isEmpty

/-- Public keys.  `gen 0` is the `mintKeypair` generated at line 264;
`gen 1` is the keypair generated inside the spl-token `createMint`
default argument (the source passes `undefined` for it at line 338).
`pda seed prog k` models `PublicKey.findProgramAddressSync` with the
given seed string, program id `prog` and seed key `k`. -/
inductive PK where
  | wallet
  | feeCollector
  | systemProgram
  | tokenProgram
  | metadataProgram
  | gen (n : ℕ)
  | pda (seed : String) (prog : PK) (k : PK)
deriving DecidableEq

/-- `getMetadataPDA` (lines 20-30): the PDA with seeds
`["metadata", TOKEN_METADATA_PROGRAM_ID, mint]` under the metadata
program id. -/
def getMetadataPDA (mint : PK) : PK :=
  PK.pda "metadata" PK.metadataProgram mint

/-- The associated token account address for an owner and a mint, as
derived inside `getOrCreateAssociatedTokenAccount` (a deterministic PDA
of owner and mint). -/
def ataAddress (owner mint : PK) : PK :=
  PK.pda "ata" owner mint

/-- `MIN_MINT_RENT_LAMPORTS` (line 181). -/
def MIN_MINT_RENT_LAMPORTS : ℕ := 2461600

/-- `METADATA_REQUIRED_LAMPORTS` (line 180); a hardcoded constant — the
679-byte metadata space is never passed to a rent query in this
revision. -/
def METADATA_REQUIRED_LAMPORTS : ℕ := 3410880

/-- `TX_FEE` (line 197). -/
def TX_FEE : ℕ := 5000

/-- `NUM_TRANSACTIONS` (line 198). -/
def NUM_TRANSACTIONS : ℕ := 4

/-- Number of selected authority flags. -/
def authorityCount : Option Authorities → ℕ
  | none => 0
  | some a =>
    (if a.freezeAuthority then 1 else 0) + (if a.mintAuthority then 1 else 0)
      + (if a.updateAuthority then 1 else 0)

/-- The service-fee accumulation of lines 187-193, in exact rational
arithmetic: start from `0.05`, add `0.1` for each selected authority
flag, add `0.1` if the creator field is truthy. -/
def serviceFeeQ (auth : Option Authorities) (creator : Bool) : ℚ :=
  let f : ℚ := mkRat 5 100
  let f : ℚ :=
    match auth with
    | some a =>
      let f := if a.freezeAuthority then qadd f (mkRat 1 10) else f
      let f := if a.mintAuthority then qadd f (mkRat 1 10) else f
      if a.updateAuthority then qadd f (mkRat 1 10) else f
    | none => f
  if creator then qadd f (mkRat 1 10) else f

/-- `totalRequired` (lines 201-205): service fee in lamports plus mint
rent (clamped below by `MIN_MINT_RENT_LAMPORTS`, line 184), token
account rent, the hardcoded metadata lamports and the estimated
transaction fees. -/
def costTotalQ (fee : ℚ) (calculatedMintRent tokenAccountRent : ℕ) : ℚ :=
  qadd (qadd (qadd (qadd (qmul fee ((10^9 : ℕ) : ℚ))
    ((max calculatedMintRent MIN_MINT_RENT_LAMPORTS : ℕ) : ℚ))
    (tokenAccountRent : ℚ)) (METADATA_REQUIRED_LAMPORTS : ℚ))
    ((TX_FEE * NUM_TRANSACTIONS : ℕ) : ℚ)

/-! ### Strings, parsing and the balance-guard message -/

/-- `data.supply.replace(/,/g, '')` (line 377): remove every comma,
keep every other character. -/
def stripCommas (s : String) : String :=
  String.mk (s.data.filter (fun c => c ≠ ','))

/-- Numeric value of a decimal digit character. -/
def digitVal (c : Char) : ℕ := c.toNat - 48

/-- Value of a list of decimal digit characters, most significant
first. -/
def natOfDigits (cs : List Char) : ℕ :=
  cs.foldl (fun a c => 10 * a + digitVal c) 0

/-- Longest run of decimal digits at the head of the list. -/
def leadingDigits (cs : List Char) : List Char :=
  cs.takeWhile (fun c => c.isDigit)

/-- The digit-run of a character list as a number, `none` when the list
does not start with a digit. -/
def digitsOpt (cs : List Char) : Option ℕ :=
  match leadingDigits cs with
  | [] => none
  | ds => some (natOfDigits ds)

/-- JavaScript `parseInt(s)` restricted to decimal inputs: skip leading
spaces, accept one optional sign, read the longest run of decimal
digits; `none` models the `NaN` result when no digit is found.  (The
hexadecimal `0x` form of `parseInt` is irrelevant to the supply strings
at issue and is not modelled.) -/
def parseIntJS (s : String) : Option ℤ :=
  match s.data.dropWhile (fun c => c = ' ') with
  | [] => none
  | c :: rest =>
    if c = '-' then (digitsOpt rest).map (fun n => -(n : ℤ))
    else if c = '+' then (digitsOpt rest).map (fun n => (n : ℤ))
    else (digitsOpt (c :: rest)).map (fun n => (n : ℤ))

/-- `(x).toFixed(4)` on a non-negative exact value: round half up to
four decimal places and print with exactly four fractional digits. -/
def fmt4 (q : ℚ) : String :=
  let n : ℕ := (ratFloor (qadd (qmul q (10000 : ℚ)) (mkRat 1 2))).toNat
  let fps : String := toString (n % 10000)
  toString (n / 10000) ++ "." ++ String.mk (List.replicate (4 - fps.length) '0') ++ fps

/-- The itemized insufficient-balance message of lines 219-227: the
required total followed by one line per cost component (service fee,
mint account rent, token account rent, metadata rent, transaction
fees), each formatted in SOL with four decimals. -/
def insufficientMessage (fee : ℚ) (mintRent tokenAccountRent : ℕ) (total : ℚ) : String :=
  "Insufficient balance. Required " ++ fmt4 (qdivNat total (10^9)) ++ " SOL for:\n"
    ++ "- Service fee: " ++ fmt4 fee ++ " SOL\n"
    ++ "- Mint account rent: " ++ fmt4 (qdivNat (mintRent : ℚ) (10^9)) ++ " SOL\n"
    ++ "- Token account rent: " ++ fmt4 (qdivNat (tokenAccountRent : ℚ) (10^9)) ++ " SOL\n"
    ++ "- Metadata rent: " ++ fmt4 (qdivNat (METADATA_REQUIRED_LAMPORTS : ℚ) (10^9)) ++ " SOL\n"
    ++ "- Transaction fees: " ++ fmt4 (qdivNat ((TX_FEE * NUM_TRANSACTIONS : ℕ) : ℚ) (10^9)) ++ " SOL"

/-- `pat` occurs contiguously inside `s` (stated on the character
lists). -/
def containsSeg (pat s : String) : Prop :=
  ∃ l r : List Char, s.data = l ++ (pat.data ++ r)

/-- `getFormattedEndpoint` (lines 10-18). -/
def getFormattedEndpoint : Option String → Except String String
  | none => Except.error "QuickNode endpoint is not configured"
  | some e =>
    Except.ok
      (if !(e.startsWith "http://") && !(e.startsWith "https://")
        then "https://" ++ e else e)

/-! ### Transactions and the orchestrator -/

/-- On-chain instructions assembled by the orchestrator and by the
spl-token library calls it makes.  `lamports` of a transfer is rational
because revision 1 computes `serviceFee * 1e9` without rounding.
`metadataV3` records the account keys and the fields written into the
instruction byte buffer by `createMetadataInstruction` (lines 42-140):
the name and symbol (padded/truncated on the wire to 32 and 10 bytes),
the uri (always the empty string, line 68), and the optional creator
triple (pubkey, verified = 0, share = 100). -/
inductive Instr where
  | transfer (source dest : PK) (lamports : ℚ)
  | computeBudget (units : ℕ)
  | metadataV3 (metadata mint mintAuthority payer updateAuthority : PK)
      (name symbol uri : String) (creator : Option (PK × Bool × ℕ))
  | createAccount (source newAccount : PK) (lamports : ℕ)
  | initializeMint (mint : PK) (decimals : ℤ) (mintAuthority : PK)
      (freezeAuthority : Option PK)
  | createATA (payer ata owner mint : PK)
  | mintTo (mint dest authority : PK) (amount : ℤ)
deriving DecidableEq

/-- A submitted transaction: its fee payer and its instructions. -/
structure Tx where
  feePayer : PK
  instrs : List Instr
deriving DecidableEq

/-- `createMetadataInstruction` (lines 32-143): a compute-budget
instruction (400000 units) followed by the raw metadata instruction.
The uri field is the empty string (line 68); the creator, when the
caller supplies an address, is written with verified = 0 and
share = 100 (lines 83-90). -/
def createMetadataInstr (metadata mint mintAuthority payer updateAuthority : PK)
    (name symbol : String) (creatorAddress : Option PK) : List Instr :=
  [Instr.computeBudget 400000,
   Instr.metadataV3 metadata mint mintAuthority payer updateAuthority
     name symbol "" (creatorAddress.map (fun c => (c, false, 100)))]

/-- Failure outcomes of `createToken`.  The source throws `Error`
values; the constructors record the construction site and the message
where a claim inspects it. -/
inductive Err where
  | endpointNotConfigured
  | connectFailed
  | rpc (msg : String)
  | insufficientFunds (msg : String)
  | txFailed (msg : String)
  | lib (msg : String)
  | badSupply
deriving DecidableEq

/-- The success payload (lines 392-398).  `feeTransaction` is the
signature of the fee transaction, modelled by its position (0) in the
submission order. -/
structure TokenResult where
  success : Bool
  tokenAddress : PK
  metadataAddress : PK
  feeAmount : ℚ
  feeTransaction : ℕ
deriving DecidableEq

/-- Outcomes of every fallible external call the orchestrator makes, in
program order.  `mintRentQ` and `tokenRentQ` are the two
`getMinimumBalanceForRentExemption` queries (82 and 165 bytes);
`feeConfirmErr`, `metaFundConfirmErr`, `mintFundConfirmErr` are the
`confirmation.value.err` fields the source checks; `metaIxOk` is the
send/confirm of the metadata-instruction transaction (whose `err` field
the source does not check, so only a rejected await aborts there);
`ataExists` tells whether the associated token account already exists
(`getOrCreateAssociatedTokenAccount` only creates it otherwise);
`createMintOk`, `ataOk`, `mintToOk` are the spl-token library calls.
Blockhash fetches and raw sends are modelled as succeeding: a failure
there only truncates the submitted prefix earlier, which no claim is
sensitive to. -/
structure Env where
  endpoint : Option String
  versionOk : Bool
  mintRentQ : Except String ℕ
  tokenRentQ : Except String ℕ
  balance : ℕ
  feeConfirmErr : Option String
  metaFundConfirmErr : Option String
  mintFundConfirmErr : Option String
  createMintOk : Bool
  metaIxOk : Bool
  ataExists : Bool
  ataOk : Bool
  mintToOk : Bool

/-- `data.authorities?.freezeAuthority` truthiness (line 336). -/
def freezeRequested (d : TokenData) : Bool :=
  match d.authorities with
  | some a => a.freezeAuthority
  | none => false

/-- `feeTransaction` (lines 234-240): transfer of the fee lamports from
the wallet to the fee collector, fee paid by the wallet. -/
def feeTxOf (fee : ℚ) : Tx :=
  ⟨PK.wallet, [Instr.transfer PK.wallet PK.feeCollector (qmul fee ((10^9 : ℕ) : ℚ))]⟩

/-- `fundMetadataAccountTx` (lines 272-282): transfer of the hardcoded
metadata lamports from the wallet to the metadata PDA of the generated
`mintKeypair`. -/
def fundMetaTxOf : Tx :=
  ⟨PK.wallet, [Instr.transfer PK.wallet (getMetadataPDA (PK.gen 0)) (METADATA_REQUIRED_LAMPORTS : ℚ)]⟩

/-- `fundMintAccountTx` (lines 304-314): transfer of the clamped mint
rent from the wallet to `mintKeypair`. -/
def fundMintTxOf (calculatedMintRent : ℕ) : Tx :=
  ⟨PK.wallet, [Instr.transfer PK.wallet (PK.gen 0)
    ((max calculatedMintRent MIN_MINT_RENT_LAMPORTS : ℕ) : ℚ)]⟩

/-- The transaction sent by the spl-token `createMint` call (lines
332-341): create the fresh mint account (`PK.gen 1`, rent from the
library's own rent query) and initialize it with the request's decimals,
the wallet as mint authority and the wallet as freeze authority exactly
when requested; fee paid by the `payer` argument `mintKeypair`. -/
def createMintTxOf (calculatedMintRent : ℕ) (d : TokenData) : Tx :=
  ⟨PK.gen 0,
    [Instr.createAccount (PK.gen 0) (PK.gen 1) calculatedMintRent,
     Instr.initializeMint (PK.gen 1) d.decimals PK.wallet
       (if freezeRequested d then some PK.wallet else none)]⟩

/-- `createMetadataIx` as submitted (lines 343-364): the metadata
instruction transaction, fee paid by the wallet; the metadata account is
the PDA of `mintKeypair` while the mint account is the fresh mint. -/
def metaTxOf (d : TokenData) : Tx :=
  ⟨PK.wallet,
    createMetadataInstr (getMetadataPDA (PK.gen 0)) (PK.gen 1) PK.wallet PK.wallet PK.wallet
      d.name d.symbol (if truthy d.creatorName then some PK.wallet else none)⟩

/-- The transaction sent by `getOrCreateAssociatedTokenAccount` (lines
366-375) when the associated account does not already exist; fee and
rent paid by `mintKeypair`. -/
def ataTxsOf (ataExists : Bool) : List Tx :=
  if ataExists then []
  else [⟨PK.gen 0, [Instr.createATA (PK.gen 0) (ataAddress PK.wallet (PK.gen 1)) PK.wallet (PK.gen 1)]⟩]

/-- The transaction sent by `mintTo` (lines 378-388): mint `sn` base
units to the associated account, mint authority the wallet; fee paid by
`mintKeypair`. -/
def mintToTxOf (sn : ℤ) : Tx :=
  ⟨PK.gen 0, [Instr.mintTo (PK.gen 1) (ataAddress PK.wallet (PK.gen 1)) PK.wallet sn]⟩

/-- The full transaction list of a successful run. -/
def successTxs (fee : ℚ) (calculatedMintRent : ℕ) (d : TokenData) (ataExists : Bool)
    (sn : ℤ) : List Tx :=
  [feeTxOf fee, fundMetaTxOf, fundMintTxOf calculatedMintRent,
   createMintTxOf calculatedMintRent d, metaTxOf d] ++ ataTxsOf ataExists ++ [mintToTxOf sn]

/-- The orchestrator `createToken` (lines 145-403), in exact rational
arithmetic: returns the transactions submitted to the chain, in
submission order, and the outcome.  The spl-token calls are modelled
after their public signatures: `createMint` receives `undefined` for
its keypair argument, so it generates a fresh mint keypair (`PK.gen 1`)
and sends a create-account plus initialize-mint transaction paid by the
`payer` argument (`mintKeypair = PK.gen 0`); the associated token
account and mint-to transactions are likewise paid by `mintKeypair`. -/
def createTokenRun (env : Env) (d : TokenData) : List Tx × Except Err TokenResult :=
  match getFormattedEndpoint env.endpoint with
  | Except.error _ => ([], Except.error Err.endpointNotConfigured)
  | Except.ok _ =>
  if !env.versionOk then ([], Except.error Err.connectFailed) else
  match env.mintRentQ with
  | Except.error e => ([], Except.error (Err.rpc e))
  | Except.ok calculatedMintRent =>
  match env.tokenRentQ with
  | Except.error e => ([], Except.error (Err.rpc e))
  | Except.ok tokenAccountRent =>
  let mintRent := max calculatedMintRent MIN_MINT_RENT_LAMPORTS
  let serviceFee := serviceFeeQ d.authorities (truthy d.creatorName)
  let totalRequired := costTotalQ serviceFee calculatedMintRent tokenAccountRent
  if (env.balance : ℚ) < totalRequired then
    ([], Except.error (Err.insufficientFunds
      (insufficientMessage serviceFee mintRent tokenAccountRent totalRequired)))
  else
  match env.feeConfirmErr with
  | some e => ([feeTxOf serviceFee], Except.error (Err.txFailed ("Fee transaction failed: " ++ e)))
  | none =>
  match env.metaFundConfirmErr with
  | some e => ([feeTxOf serviceFee, fundMetaTxOf],
      Except.error (Err.txFailed ("Metadata funding failed: " ++ e)))
  | none =>
  match env.mintFundConfirmErr with
  | some e => ([feeTxOf serviceFee, fundMetaTxOf, fundMintTxOf calculatedMintRent],
      Except.error (Err.txFailed ("Mint funding failed: " ++ e)))
  | none =>
  if !env.createMintOk then
    ([feeTxOf serviceFee, fundMetaTxOf, fundMintTxOf calculatedMintRent,
      createMintTxOf calculatedMintRent d],
      Except.error (Err.lib "createMint failed"))
  else
  if !env.metaIxOk then
    ([feeTxOf serviceFee, fundMetaTxOf, fundMintTxOf calculatedMintRent,
      createMintTxOf calculatedMintRent d, metaTxOf d],
      Except.error (Err.txFailed "metadata transaction not confirmed"))
  else
  if !env.ataOk then
    ([feeTxOf serviceFee, fundMetaTxOf, fundMintTxOf calculatedMintRent,
      createMintTxOf calculatedMintRent d, metaTxOf d] ++ ataTxsOf env.ataExists,
      Except.error (Err.lib "getOrCreateAssociatedTokenAccount failed"))
  else
  match parseIntJS (stripCommas d.supply) with
  | none =>
    ([feeTxOf serviceFee, fundMetaTxOf, fundMintTxOf calculatedMintRent,
      createMintTxOf calculatedMintRent d, metaTxOf d] ++ ataTxsOf env.ataExists,
      Except.error Err.badSupply)
  | some supplyNumber =>
  if !env.mintToOk then
    (successTxs serviceFee calculatedMintRent d env.ataExists supplyNumber,
      Except.error (Err.lib "mintTo failed"))
  else
    (successTxs serviceFee calculatedMintRent d env.ataExists supplyNumber,
      Except.ok ⟨true, PK.gen 1, getMetadataPDA (PK.gen 0), serviceFee, 0⟩)

/-- All instructions of a run, flattened in submission order. -/
def allInstrs (env : Env) (d : TokenData) : List Instr :=
  ((createTokenRun env d).1.map Tx.instrs).flatten

/-- Lamports an instruction debits directly from the user's wallet. -/
def instrWalletDebit : Instr → ℚ
  | Instr.transfer source _ amt => if source = PK.wallet then amt else 0
  | Instr.createAccount source _ amt => if source = PK.wallet then (amt : ℚ) else 0
  | _ => 0

/-- Lamports a transaction debits from the user's wallet: its transfers
out of the wallet, plus the network fee when the wallet is the fee
payer. -/
def txWalletDebit (t : Tx) : ℚ :=
  qadd (if t.feePayer = PK.wallet then (TX_FEE : ℚ) else 0)
    (qsum (t.instrs.map instrWalletDebit))

/-- Total lamports debited from the user's wallet by a list of
submitted transactions. -/
def walletDebits (txs : List Tx) : ℚ :=
  qsum (txs.map txWalletDebit)

/-- Boolean membership in a list of keys. -/
def pkMem (m : PK) : List PK → Bool
  | [] => false
  | p :: rest => if m = p then true else pkMem m rest

/-- `orderedAux inited l = true` iff every mint-to instruction in `l`
targets a mint that was initialized earlier in `l` (or is listed in
`inited`). -/
def orderedAux : List PK → List Instr → Bool
  | _, [] => true
  | inited, Instr.initializeMint m _ _ _ :: rest => orderedAux (m :: inited) rest
  | inited, Instr.mintTo m _ _ _ :: rest => pkMem m inited && orderedAux inited rest
  | inited, _ :: rest => orderedAux inited rest

/-- Every mint-to instruction is preceded by the initialization of its
mint. -/
def initBeforeMintTo (l : List Instr) : Bool := orderedAux [] l

/-- The amounts of all mint-to instructions of a run. -/
def mintToAmounts (env : Env) (d : TokenData) : List ℤ :=
  (allInstrs env d).filterMap
    (fun i => match i with
      | Instr.mintTo _ _ _ amt => some amt
      | _ => none)

/-! ### The binary64 model

JavaScript numbers are IEEE-754 binary64 values: rationals of the form
`m * 2^e` with `|m| < 2^53`, and every operation rounds its exact
result to the nearest such value, ties to even.  All values in the fee
computation are well inside the normal range, so overflow and
subnormals need no treatment.  A decimal literal such as `0.05` denotes
`fl (5/100)`, and the JS `x + y`, `x * y` denote `fl` of the exact
result. -/

/-- Number of binary digits of `n`, with explicit fuel so that the
definition reduces in the kernel (200 covers every value in this
development). -/
def bitsAux : ℕ → ℕ → ℕ
  | 0, _ => 0
  | fuel + 1, n => if n = 0 then 0 else bitsAux fuel (n / 2) + 1

/-- Number of binary digits of `n` (0 for 0). -/
def nbits (n : ℕ) : ℕ := bitsAux 200 n

/-- `2^e` in `ℚ` for an integer exponent. -/
def pow2 : ℤ → ℚ
  | Int.ofNat n => ((2^n : ℕ) : ℚ)
  | Int.negSucc n => mkRat 1 (2^(n+1))

/-- `a * 2^e` in `ℚ`. -/
def scale2 (a : ℚ) : ℤ → ℚ
  | Int.ofNat n => qmul a ((2^n : ℕ) : ℚ)
  | Int.negSucc n => qdivNat a (2^(n+1))

/-- `⌊log₂ q⌋` for a positive rational `q` with numerator and
denominator below `2^200`. -/
def floorLog2 (q : ℚ) : ℤ :=
  let e : ℤ := (nbits q.num.toNat : ℤ) - (nbits q.den : ℤ)
  if q < pow2 e then e - 1 else e

/-- Round a rational to the nearest integer, ties to even. -/
def rne (x : ℚ) : ℤ :=
  let f := ratFloor x
  let r := qsub x ((f : ℤ) : ℚ)
  if r < mkRat 1 2 then f
  else if mkRat 1 2 < r then f + 1
  else if f % 2 = 0 then f else f + 1

/-- Round a positive rational to the nearest binary64 value: scale into
`[2^52, 2^53)`, round to an integer significand (ties to even), scale
back. -/
def flPos (a : ℚ) : ℚ :=
  let e : ℤ := floorLog2 a - 52
  scale2 ((rne (scale2 a (-e)) : ℤ) : ℚ) e

/-- Round an exact rational to the nearest binary64 value (normal range
only). -/
def fl (q : ℚ) : ℚ :=
  if q = 0 then 0
  else if q < 0 then Rat.neg (flPos (Rat.neg q))
  else flPos q

/-- binary64 addition: correctly rounded exact sum. -/
def fadd (x y : ℚ) : ℚ := fl (qadd x y)

/-- binary64 multiplication: correctly rounded exact product. -/
def fmul (x y : ℚ) : ℚ := fl (qmul x y)

/-- The service-fee accumulation of lines 187-193 under binary64
semantics: the literals `0.05` and `0.1` denote their nearest doubles
and each `+=` rounds. -/
def serviceFee64 (auth : Option Authorities) (creator : Bool) : ℚ :=
  let p : ℚ := fl (mkRat 1 10)
  let f : ℚ := fl (mkRat 5 100)
  let f : ℚ :=
    match auth with
    | some a =>
      let f := if a.freezeAuthority then fadd f p else f
      let f := if a.mintAuthority then fadd f p else f
      if a.updateAuthority then fadd f p else f
    | none => f
  if creator then fadd f p else f

/-- `serviceFee * 1e9` (line 195) under binary64 semantics: revision 1
multiplies the unrounded fee directly (`1e9` is exactly
representable). -/
def serviceFeeInLamports64 (auth : Option Authorities) (creator : Bool) : ℚ :=
  fmul (serviceFee64 auth creator) ((10^9 : ℕ) : ℚ)

/-- `Number(x.toFixed(2))` on a binary64 value `x ≥ 0`: `toFixed(2)`
prints the decimal nearest to the exact value of `x` with two
fractional digits (of two equally near decimals the larger is printed),
and `Number` rounds that decimal back to binary64. -/
def toFixed2Num (x : ℚ) : ℚ :=
  fl (qdivNat ((ratFloor (qadd (qmul x (100 : ℚ)) (mkRat 1 2)) : ℤ) : ℚ) 100)

/-- The fee-to-lamports conversion of `src/unnamed/part_013` lines
215-216 under binary64 semantics:
`baseFee = Number(baseFee.toFixed(2))` followed by
`Math.floor(baseFee * LAMPORTS_PER_SOL)` (the floor of a binary64 value
is exact; the fee accumulation of part_013 lines 207-213 is identical
to revision 1's). -/
def part13FeeLamports (auth : Option Authorities) (creator : Bool) : ℚ :=
  ((ratFloor (fmul (toFixed2Num (serviceFee64 auth creator)) ((10^9 : ℕ) : ℚ)) : ℤ) : ℚ)

/-! ### Concrete inputs for witnesses and counterexamples -/

/-- An environment in which every external call succeeds: both rent
queries answer their mainnet values (2461600 and 2039280 lamports), the
balance is one SOL, and no confirmation fails. -/
def envOk : Env :=
  ⟨some "node.example", true, Except.ok 2461600, Except.ok 2039280, 10^9,
    none, none, none, true, true, false, true, true⟩

/-- `envOk` with a balance of 1000 lamports (below any total). -/
def envLow : Env :=
  ⟨some "node.example", true, Except.ok 2461600, Except.ok 2039280, 1000,
    none, none, none, true, true, false, true, true⟩

/-- `envOk` with the mint-rent query answering 1000 lamports (below the
hardcoded clamp). -/
def envRentSmall : Env :=
  ⟨some "node.example", true, Except.ok 1000, Except.ok 2039280, 10^9,
    none, none, none, true, true, false, true, true⟩

/-- `envOk` with the mint-rent query rejected. -/
def envRentFail : Env :=
  ⟨some "node.example", true, Except.error "rpc unreachable", Except.ok 2039280, 10^9,
    none, none, none, true, true, false, true, true⟩

/-- A plain request: no authority revocations, no creator metadata. -/
def dataBase : TokenData :=
  ⟨"Test", "TST", "1000", 9, "WALLETADDR", none, none⟩

/-- `dataBase` with the comma-separated supply string. -/
def dataComma : TokenData :=
  ⟨"Test", "TST", "1,000,000", 9, "WALLETADDR", none, none⟩

/-- `dataBase` with creator metadata. -/
def dataCreator : TokenData :=
  ⟨"Test", "TST", "1000", 9, "WALLETADDR", none, some "Alice"⟩

/-- `dataBase` with decimals 15, outside the documented range. -/
def dataDec15 : TokenData :=
  ⟨"Test", "TST", "1000", 15, "WALLETADDR", none, none⟩

/-! ### Bridges between the kernel-reducible arithmetic and `+ * - /` -/

theorem qadd_eq (a b : ℚ) : qadd a b = a + b := by
  have ha : ((a.den : ℚ)) ≠ 0 := Nat.cast_ne_zero.mpr a.den_ne_zero
  have hb : ((b.den : ℚ)) ≠ 0 := Nat.cast_ne_zero.mpr b.den_ne_zero
  rw [qadd, Rat.mkRat_eq_div]
  push_cast
  conv_rhs => rw [← Rat.num_div_den a, ← Rat.num_div_den b]
  rw [div_add_div _ _ ha hb]
  ring_nf

theorem qmul_eq (a b : ℚ) : qmul a b = a * b := by
  rw [qmul, Rat.mkRat_eq_div]
  push_cast
  rw [← div_mul_div_comm, Rat.num_div_den, Rat.num_div_den]

theorem qsub_eq (a b : ℚ) : qsub a b = a - b := by
  rw [qsub, qadd_eq, sub_eq_add_neg]
  rfl

theorem qdivNat_eq (a : ℚ) (n : ℕ) : qdivNat a n = a / n := by
  rw [qdivNat, Rat.mkRat_eq_div]
  push_cast
  rw [← div_div, Rat.num_div_den]

theorem foldl_qadd_eq (l : List ℚ) : ∀ a : ℚ, l.foldl qadd a = a + l.sum := by
  induction l with
  | nil => intro a; simp
  | cons x xs ih =>
    intro a
    simp only [List.foldl_cons, List.sum_cons, ih, qadd_eq]
    ring

theorem qsum_eq (l : List ℚ) : qsum l = l.sum := by
  rw [qsum, foldl_qadd_eq]
  simp

/-! ### Inversion of the orchestrator

`run_cases` enumerates the possible control paths of `createTokenRun`:
every run falls into exactly one of fourteen shapes, each recorded with
the environment facts that select it and the exact transaction list and
outcome it produces. -/

theorem run_cases (env : Env) (d : TokenData) :
    (env.endpoint = none ∧
      createTokenRun env d = ([], Except.error Err.endpointNotConfigured)) ∨
    (env.versionOk = false ∧
      createTokenRun env d = ([], Except.error Err.connectFailed)) ∨
    (∃ msg, env.mintRentQ = Except.error msg ∧
      createTokenRun env d = ([], Except.error (Err.rpc msg))) ∨
    (∃ cm msg, env.mintRentQ = Except.ok cm ∧ env.tokenRentQ = Except.error msg ∧
      createTokenRun env d = ([], Except.error (Err.rpc msg))) ∨
    (∃ cm tr, env.mintRentQ = Except.ok cm ∧ env.tokenRentQ = Except.ok tr ∧
      ((env.balance : ℚ) < costTotalQ (serviceFeeQ d.authorities (truthy d.creatorName)) cm tr) ∧
      createTokenRun env d = ([], Except.error (Err.insufficientFunds
        (insufficientMessage (serviceFeeQ d.authorities (truthy d.creatorName))
          (max cm MIN_MINT_RENT_LAMPORTS) tr
          (costTotalQ (serviceFeeQ d.authorities (truthy d.creatorName)) cm tr))))) ∨
    (∃ cm tr e, env.mintRentQ = Except.ok cm ∧ env.tokenRentQ = Except.ok tr ∧
      ¬ ((env.balance : ℚ) < costTotalQ (serviceFeeQ d.authorities (truthy d.creatorName)) cm tr) ∧
      env.feeConfirmErr = some e ∧
      createTokenRun env d
        = ([feeTxOf (serviceFeeQ d.authorities (truthy d.creatorName))],
            Except.error (Err.txFailed ("Fee transaction failed: " ++ e)))) ∨
    (∃ cm tr e, env.mintRentQ = Except.ok cm ∧ env.tokenRentQ = Except.ok tr ∧
      ¬ ((env.balance : ℚ) < costTotalQ (serviceFeeQ d.authorities (truthy d.creatorName)) cm tr) ∧
      env.feeConfirmErr = none ∧ env.metaFundConfirmErr = some e ∧
      createTokenRun env d
        = ([feeTxOf (serviceFeeQ d.authorities (truthy d.creatorName)), fundMetaTxOf],
            Except.error (Err.txFailed ("Metadata funding failed: " ++ e)))) ∨
    (∃ cm tr e, env.mintRentQ = Except.ok cm ∧ env.tokenRentQ = Except.ok tr ∧
      ¬ ((env.balance : ℚ) < costTotalQ (serviceFeeQ d.authorities (truthy d.creatorName)) cm tr) ∧
      env.feeConfirmErr = none ∧ env.metaFundConfirmErr = none ∧
      env.mintFundConfirmErr = some e ∧
      createTokenRun env d
        = ([feeTxOf (serviceFeeQ d.authorities (truthy d.creatorName)), fundMetaTxOf,
            fundMintTxOf cm],
            Except.error (Err.txFailed ("Mint funding failed: " ++ e)))) ∨
    (∃ cm tr, env.mintRentQ = Except.ok cm ∧ env.tokenRentQ = Except.ok tr ∧
      ¬ ((env.balance : ℚ) < costTotalQ (serviceFeeQ d.authorities (truthy d.creatorName)) cm tr) ∧
      env.feeConfirmErr = none ∧ env.metaFundConfirmErr = none ∧
      env.mintFundConfirmErr = none ∧ env.createMintOk = false ∧
      createTokenRun env d
        = ([feeTxOf (serviceFeeQ d.authorities (truthy d.creatorName)), fundMetaTxOf,
            fundMintTxOf cm, createMintTxOf cm d],
            Except.error (Err.lib "createMint failed"))) ∨
    (∃ cm tr, env.mintRentQ = Except.ok cm ∧ env.tokenRentQ = Except.ok tr ∧
      ¬ ((env.balance : ℚ) < costTotalQ (serviceFeeQ d.authorities (truthy d.creatorName)) cm tr) ∧
      env.feeConfirmErr = none ∧ env.metaFundConfirmErr = none ∧
      env.mintFundConfirmErr = none ∧ env.createMintOk = true ∧ env.metaIxOk = false ∧
      createTokenRun env d
        = ([feeTxOf (serviceFeeQ d.authorities (truthy d.creatorName)), fundMetaTxOf,
            fundMintTxOf cm, createMintTxOf cm d, metaTxOf d],
            Except.error (Err.txFailed "metadata transaction not confirmed"))) ∨
    (∃ cm tr, env.mintRentQ = Except.ok cm ∧ env.tokenRentQ = Except.ok tr ∧
      ¬ ((env.balance : ℚ) < costTotalQ (serviceFeeQ d.authorities (truthy d.creatorName)) cm tr) ∧
      env.feeConfirmErr = none ∧ env.metaFundConfirmErr = none ∧
      env.mintFundConfirmErr = none ∧ env.createMintOk = true ∧ env.metaIxOk = true ∧
      env.ataOk = false ∧
      createTokenRun env d
        = ([feeTxOf (serviceFeeQ d.authorities (truthy d.creatorName)), fundMetaTxOf,
            fundMintTxOf cm, createMintTxOf cm d, metaTxOf d] ++ ataTxsOf env.ataExists,
            Except.error (Err.lib "getOrCreateAssociatedTokenAccount failed"))) ∨
    (∃ cm tr, env.mintRentQ = Except.ok cm ∧ env.tokenRentQ = Except.ok tr ∧
      ¬ ((env.balance : ℚ) < costTotalQ (serviceFeeQ d.authorities (truthy d.creatorName)) cm tr) ∧
      env.feeConfirmErr = none ∧ env.metaFundConfirmErr = none ∧
      env.mintFundConfirmErr = none ∧ env.createMintOk = true ∧ env.metaIxOk = true ∧
      env.ataOk = true ∧ parseIntJS (stripCommas d.supply) = none ∧
      createTokenRun env d
        = ([feeTxOf (serviceFeeQ d.authorities (truthy d.creatorName)), fundMetaTxOf,
            fundMintTxOf cm, createMintTxOf cm d, metaTxOf d] ++ ataTxsOf env.ataExists,
            Except.error Err.badSupply)) ∨
    (∃ cm tr sn, env.mintRentQ = Except.ok cm ∧ env.tokenRentQ = Except.ok tr ∧
      ¬ ((env.balance : ℚ) < costTotalQ (serviceFeeQ d.authorities (truthy d.creatorName)) cm tr) ∧
      env.feeConfirmErr = none ∧ env.metaFundConfirmErr = none ∧
      env.mintFundConfirmErr = none ∧ env.createMintOk = true ∧ env.metaIxOk = true ∧
      env.ataOk = true ∧ parseIntJS (stripCommas d.supply) = some sn ∧ env.mintToOk = false ∧
      createTokenRun env d
        = (successTxs (serviceFeeQ d.authorities (truthy d.creatorName)) cm d env.ataExists sn,
            Except.error (Err.lib "mintTo failed"))) ∨
    (∃ cm tr sn, env.mintRentQ = Except.ok cm ∧ env.tokenRentQ = Except.ok tr ∧
      ¬ ((env.balance : ℚ) < costTotalQ (serviceFeeQ d.authorities (truthy d.creatorName)) cm tr) ∧
      env.feeConfirmErr = none ∧ env.metaFundConfirmErr = none ∧
      env.mintFundConfirmErr = none ∧ env.createMintOk = true ∧ env.metaIxOk = true ∧
      env.ataOk = true ∧ parseIntJS (stripCommas d.supply) = some sn ∧ env.mintToOk = true ∧
      createTokenRun env d
        = (successTxs (serviceFeeQ d.authorities (truthy d.creatorName)) cm d env.ataExists sn,
            Except.ok ⟨true, PK.gen 1, getMetadataPDA (PK.gen 0),
              serviceFeeQ d.authorities (truthy d.creatorName), 0⟩)) := by
  obtain ⟨ep, vok, mrq, trq, bal, fce, mf1, mf2, cmo, mio, atae, atao, mto⟩ := env
  cases ep with
  | none => exact Or.inl ⟨rfl, rfl⟩
  | some ep =>
  cases vok with
  | false => exact Or.inr (Or.inl ⟨rfl, rfl⟩)
  | true =>
  cases mrq with
  | error msg => exact Or.inr (Or.inr (Or.inl ⟨msg, rfl, rfl⟩))
  | ok cm =>
  cases trq with
  | error msg => exact Or.inr (Or.inr (Or.inr (Or.inl ⟨cm, msg, rfl, rfl, rfl⟩)))
  | ok tr =>
  by_cases hb : ((bal : ℚ) < costTotalQ (serviceFeeQ d.authorities (truthy d.creatorName)) cm tr)
  · refine Or.inr (Or.inr (Or.inr (Or.inr (Or.inl ⟨cm, tr, rfl, rfl, hb, ?_⟩))))
    simp [createTokenRun, getFormattedEndpoint, hb]
  · cases fce with
    | some e =>
      refine Or.inr (Or.inr (Or.inr (Or.inr (Or.inr (Or.inl
        ⟨cm, tr, e, rfl, rfl, hb, rfl, ?_⟩)))))
      simp [createTokenRun, getFormattedEndpoint, hb]
    | none =>
    cases mf1 with
    | some e =>
      refine Or.inr (Or.inr (Or.inr (Or.inr (Or.inr (Or.inr (Or.inl
        ⟨cm, tr, e, rfl, rfl, hb, rfl, rfl, ?_⟩))))))
      simp [createTokenRun, getFormattedEndpoint, hb]
    | none =>
    cases mf2 with
    | some e =>
      refine Or.inr (Or.inr (Or.inr (Or.inr (Or.inr (Or.inr (Or.inr (Or.inl
        ⟨cm, tr, e, rfl, rfl, hb, rfl, rfl, rfl, ?_⟩)))))))
      simp [createTokenRun, getFormattedEndpoint, hb]
    | none =>
    cases cmo with
    | false =>
      refine Or.inr (Or.inr (Or.inr (Or.inr (Or.inr (Or.inr (Or.inr (Or.inr (Or.inl
        ⟨cm, tr, rfl, rfl, hb, rfl, rfl, rfl, rfl, ?_⟩))))))))
      simp [createTokenRun, getFormattedEndpoint, hb]
    | true =>
    cases mio with
    | false =>
      refine Or.inr (Or.inr (Or.inr (Or.inr (Or.inr (Or.inr (Or.inr (Or.inr (Or.inr (Or.inl
        ⟨cm, tr, rfl, rfl, hb, rfl, rfl, rfl, rfl, rfl, ?_⟩)))))))))
      simp [createTokenRun, getFormattedEndpoint, hb]
    | true =>
    cases atao with
    | false =>
      refine Or.inr (Or.inr (Or.inr (Or.inr (Or.inr (Or.inr (Or.inr (Or.inr (Or.inr (Or.inr
        (Or.inl ⟨cm, tr, rfl, rfl, hb, rfl, rfl, rfl, rfl, rfl, rfl, ?_⟩))))))))))
      simp [createTokenRun, getFormattedEndpoint, hb]
    | true =>
    cases hp : parseIntJS (stripCommas d.supply) with
    | none =>
      refine Or.inr (Or.inr (Or.inr (Or.inr (Or.inr (Or.inr (Or.inr (Or.inr (Or.inr (Or.inr
        (Or.inr (Or.inl ⟨cm, tr, rfl, rfl, hb, rfl, rfl, rfl, rfl, rfl, rfl, rfl, ?_⟩)))))))))))
      simp [createTokenRun, getFormattedEndpoint, hb, hp]
    | some sn =>
    cases mto with
    | false =>
      refine Or.inr (Or.inr (Or.inr (Or.inr (Or.inr (Or.inr (Or.inr (Or.inr (Or.inr (Or.inr
        (Or.inr (Or.inr (Or.inl
          ⟨cm, tr, sn, rfl, rfl, hb, rfl, rfl, rfl, rfl, rfl, rfl, rfl, rfl, ?_⟩))))))))))))
      simp [createTokenRun, getFormattedEndpoint, hb, hp]
    | true =>
      refine Or.inr (Or.inr (Or.inr (Or.inr (Or.inr (Or.inr (Or.inr (Or.inr (Or.inr (Or.inr
        (Or.inr (Or.inr (Or.inr
          ⟨cm, tr, sn, rfl, rfl, hb, rfl, rfl, rfl, rfl, rfl, rfl, rfl, rfl, ?_⟩))))))))))))
      simp [createTokenRun, getFormattedEndpoint, hb, hp]

/-- Inversion of a successful run: the environment facts it requires,
the result it returns and the transactions it submitted. -/
theorem run_ok (env : Env) (d : TokenData) (r : TokenResult)
    (h : (createTokenRun env d).2 = Except.ok r) :
    ∃ cm tr sn,
      env.mintRentQ = Except.ok cm ∧ env.tokenRentQ = Except.ok tr ∧
      ¬ ((env.balance : ℚ) < costTotalQ (serviceFeeQ d.authorities (truthy d.creatorName)) cm tr) ∧
      parseIntJS (stripCommas d.supply) = some sn ∧
      r = ⟨true, PK.gen 1, getMetadataPDA (PK.gen 0),
        serviceFeeQ d.authorities (truthy d.creatorName), 0⟩ ∧
      (createTokenRun env d).1
        = successTxs (serviceFeeQ d.authorities (truthy d.creatorName)) cm d env.ataExists sn := by
  rcases run_cases env d with
      ⟨-, hE⟩ | ⟨-, hE⟩ | ⟨msg, -, hE⟩ | ⟨cm, msg, -, -, hE⟩ |
      ⟨cm, tr, -, -, -, hE⟩ | ⟨cm, tr, e, -, -, -, -, hE⟩ |
      ⟨cm, tr, e, -, -, -, -, -, hE⟩ | ⟨cm, tr, e, -, -, -, -, -, -, hE⟩ |
      ⟨cm, tr, -, -, -, -, -, -, -, hE⟩ | ⟨cm, tr, -, -, -, -, -, -, -, -, hE⟩ |
      ⟨cm, tr, -, -, -, -, -, -, -, -, -, hE⟩ |
      ⟨cm, tr, -, -, -, -, -, -, -, -, -, -, hE⟩ |
      ⟨cm, tr, sn, -, -, -, -, -, -, -, -, -, -, -, hE⟩ |
      ⟨cm, tr, sn, hcm, htr, hb, -, -, -, -, -, -, hp, -, hE⟩
  all_goals rw [hE] at h
  any_goals (simp at h; done)
  exact ⟨cm, tr, sn, hcm, htr, hb, hp, (Except.ok.inj h).symm, by rw [hE]⟩

/-- Claim C1: for every combination of the three optional
authority-revocation flags and the creator field, the service fee
computed by `createToken` equals `0.05 + 0.1 × (selected authorities) +
0.1 × (creator present)` — `0.05` with nothing selected, `0.45` with all
three authorities and creator metadata — and a successful run both
returns this amount as `feeAmount` and charges it (times `10^9`
lamports) in the fee-transfer transaction. -/
theorem c1_service_fee :
    (∀ (auth : Option Authorities) (creator : Bool),
      serviceFeeQ auth creator
        = 5/100 + (authorityCount auth : ℚ) * (1/10) + (if creator then 1/10 else 0))
    ∧ serviceFeeQ none false = 5/100
    ∧ serviceFeeQ (some ⟨true, true, true⟩) true = 45/100
    ∧ (∀ (env : Env) (d : TokenData) (r : TokenResult),
        (createTokenRun env d).2 = Except.ok r →
          r.feeAmount = serviceFeeQ d.authorities (truthy d.creatorName)
          ∧ (createTokenRun env d).1.head?
            = some (feeTxOf (serviceFeeQ d.authorities (truthy d.creatorName)))) := by
  refine ⟨?_, ?_, ?_, ?_⟩
  · intro auth creator
    rcases auth with - | ⟨b1, b2, b3⟩
    · cases creator <;>
        simp [serviceFeeQ, authorityCount, qadd_eq, Rat.mkRat_eq_div] <;> norm_num
    · cases b1 <;> cases b2 <;> cases b3 <;> cases creator <;>
        simp [serviceFeeQ, authorityCount, qadd_eq, Rat.mkRat_eq_div] <;> norm_num
  · simp [serviceFeeQ, Rat.mkRat_eq_div]
  · simp [serviceFeeQ, qadd_eq, Rat.mkRat_eq_div]
    try norm_num
  · intro env d r h
    obtain ⟨cm, tr, sn, hcm, htr, hb, hp, hr, hTxs⟩ := run_ok env d r h
    constructor
    · rw [hr]
    · rw [hTxs]
      simp [successTxs]


/-- The five cost-component labels and the formatted total all occur in
the insufficient-balance message, by its construction. -/
theorem insufficientMessage_parts (fee : ℚ) (mr tar : ℕ) (tot : ℚ) :
    containsSeg "- Service fee: " (insufficientMessage fee mr tar tot)
    ∧ containsSeg "- Mint account rent: " (insufficientMessage fee mr tar tot)
    ∧ containsSeg "- Token account rent: " (insufficientMessage fee mr tar tot)
    ∧ containsSeg "- Metadata rent: " (insufficientMessage fee mr tar tot)
    ∧ containsSeg "- Transaction fees: " (insufficientMessage fee mr tar tot)
    ∧ containsSeg (fmt4 (qdivNat tot (10^9))) (insufficientMessage fee mr tar tot) := by
  refine ⟨⟨String.data ("Insufficient balance. Required " ++ fmt4 (qdivNat tot (10^9)) ++ " SOL for:\n"),
      String.data (fmt4 fee ++ " SOL\n" ++ "- Mint account rent: " ++ fmt4 (qdivNat (mr : ℚ) (10^9)) ++ " SOL\n" ++ "- Token account rent: " ++ fmt4 (qdivNat (tar : ℚ) (10^9)) ++ " SOL\n" ++ "- Metadata rent: " ++ fmt4 (qdivNat (METADATA_REQUIRED_LAMPORTS : ℚ) (10^9)) ++ " SOL\n" ++ "- Transaction fees: " ++ fmt4 (qdivNat ((TX_FEE * NUM_TRANSACTIONS : ℕ) : ℚ) (10^9)) ++ " SOL"), ?_⟩,
    ⟨String.data ("Insufficient balance. Required " ++ fmt4 (qdivNat tot (10^9)) ++ " SOL for:\n" ++ "- Service fee: " ++ fmt4 fee ++ " SOL\n"),
      String.data (fmt4 (qdivNat (mr : ℚ) (10^9)) ++ " SOL\n" ++ "- Token account rent: " ++ fmt4 (qdivNat (tar : ℚ) (10^9)) ++ " SOL\n" ++ "- Metadata rent: " ++ fmt4 (qdivNat (METADATA_REQUIRED_LAMPORTS : ℚ) (10^9)) ++ " SOL\n" ++ "- Transaction fees: " ++ fmt4 (qdivNat ((TX_FEE * NUM_TRANSACTIONS : ℕ) : ℚ) (10^9)) ++ " SOL"), ?_⟩,
    ⟨String.data ("Insufficient balance. Required " ++ fmt4 (qdivNat tot (10^9)) ++ " SOL for:\n" ++ "- Service fee: " ++ fmt4 fee ++ " SOL\n" ++ "- Mint account rent: " ++ fmt4 (qdivNat (mr : ℚ) (10^9)) ++ " SOL\n"),
      String.data (fmt4 (qdivNat (tar : ℚ) (10^9)) ++ " SOL\n" ++ "- Metadata rent: " ++ fmt4 (qdivNat (METADATA_REQUIRED_LAMPORTS : ℚ) (10^9)) ++ " SOL\n" ++ "- Transaction fees: " ++ fmt4 (qdivNat ((TX_FEE * NUM_TRANSACTIONS : ℕ) : ℚ) (10^9)) ++ " SOL"), ?_⟩,
    ⟨String.data ("Insufficient balance. Required " ++ fmt4 (qdivNat tot (10^9)) ++ " SOL for:\n" ++ "- Service fee: " ++ fmt4 fee ++ " SOL\n" ++ "- Mint account rent: " ++ fmt4 (qdivNat (mr : ℚ) (10^9)) ++ " SOL\n" ++ "- Token account rent: " ++ fmt4 (qdivNat (tar : ℚ) (10^9)) ++ " SOL\n"),
      String.data (fmt4 (qdivNat (METADATA_REQUIRED_LAMPORTS : ℚ) (10^9)) ++ " SOL\n" ++ "- Transaction fees: " ++ fmt4 (qdivNat ((TX_FEE * NUM_TRANSACTIONS : ℕ) : ℚ) (10^9)) ++ " SOL"), ?_⟩,
    ⟨String.data ("Insufficient balance. Required " ++ fmt4 (qdivNat tot (10^9)) ++ " SOL for:\n" ++ "- Service fee: " ++ fmt4 fee ++ " SOL\n" ++ "- Mint account rent: " ++ fmt4 (qdivNat (mr : ℚ) (10^9)) ++ " SOL\n" ++ "- Token account rent: " ++ fmt4 (qdivNat (tar : ℚ) (10^9)) ++ " SOL\n" ++ "- Metadata rent: " ++ fmt4 (qdivNat (METADATA_REQUIRED_LAMPORTS : ℚ) (10^9)) ++ " SOL\n"),
      String.data (fmt4 (qdivNat ((TX_FEE * NUM_TRANSACTIONS : ℕ) : ℚ) (10^9)) ++ " SOL"), ?_⟩,
    ⟨String.data ("Insufficient balance. Required "),
      String.data (" SOL for:\n" ++ "- Service fee: " ++ fmt4 fee ++ " SOL\n" ++ "- Mint account rent: " ++ fmt4 (qdivNat (mr : ℚ) (10^9)) ++ " SOL\n" ++ "- Token account rent: " ++ fmt4 (qdivNat (tar : ℚ) (10^9)) ++ " SOL\n" ++ "- Metadata rent: " ++ fmt4 (qdivNat (METADATA_REQUIRED_LAMPORTS : ℚ) (10^9)) ++ " SOL\n" ++ "- Transaction fees: " ++ fmt4 (qdivNat ((TX_FEE * NUM_TRANSACTIONS : ℕ) : ℚ) (10^9)) ++ " SOL"), ?_⟩⟩
  all_goals simp only [insufficientMessage, String.data_append, List.append_assoc]

/-- With the connection established and both rent queries answered, a
run rejects with the itemized insufficient-funds message when the
balance is below the total, and never produces an insufficient-funds
error otherwise. -/
theorem guard_characterization (env : Env) (d : TokenData) (ep : String) (cm tr : ℕ)
    (he : env.endpoint = some ep) (hv : env.versionOk = true)
    (hm : env.mintRentQ = Except.ok cm) (ht : env.tokenRentQ = Except.ok tr) :
    (((env.balance : ℚ) < costTotalQ (serviceFeeQ d.authorities (truthy d.creatorName)) cm tr) →
      createTokenRun env d = ([], Except.error (Err.insufficientFunds
        (insufficientMessage (serviceFeeQ d.authorities (truthy d.creatorName))
          (max cm MIN_MINT_RENT_LAMPORTS) tr
          (costTotalQ (serviceFeeQ d.authorities (truthy d.creatorName)) cm tr)))))
    ∧ (¬ ((env.balance : ℚ) < costTotalQ (serviceFeeQ d.authorities (truthy d.creatorName)) cm tr) →
      ∀ msg, (createTokenRun env d).2 ≠ Except.error (Err.insufficientFunds msg)) := by
  rcases run_cases env d with
      ⟨hf, hE⟩ | ⟨hf, hE⟩ | ⟨msg, hf, hE⟩ | ⟨cm2, msg, hf1, hf2, hE⟩ |
      ⟨cm2, tr2, hf1, hf2, hb, hE⟩ | ⟨cm2, tr2, e, hf1, hf2, hb, hf3, hE⟩ |
      ⟨cm2, tr2, e, hf1, hf2, hb, hf3, hf4, hE⟩ |
      ⟨cm2, tr2, e, hf1, hf2, hb, hf3, hf4, hf5, hE⟩ |
      ⟨cm2, tr2, hf1, hf2, hb, hf3, hf4, hf5, hf6, hE⟩ |
      ⟨cm2, tr2, hf1, hf2, hb, hf3, hf4, hf5, hf6, hf7, hE⟩ |
      ⟨cm2, tr2, hf1, hf2, hb, hf3, hf4, hf5, hf6, hf7, hf8, hE⟩ |
      ⟨cm2, tr2, hf1, hf2, hb, hf3, hf4, hf5, hf6, hf7, hf8, hf9, hE⟩ |
      ⟨cm2, tr2, sn, hf1, hf2, hb, hf3, hf4, hf5, hf6, hf7, hf8, hf9, hf10, hE⟩ |
      ⟨cm2, tr2, sn, hf1, hf2, hb, hf3, hf4, hf5, hf6, hf7, hf8, hf9, hf10, hE⟩
  · rw [he] at hf; simp at hf
  · rw [hv] at hf; simp at hf
  · rw [hm] at hf; simp at hf
  · rw [ht] at hf2; simp at hf2
  all_goals rw [hm] at hf1
  all_goals rw [ht] at hf2
  all_goals obtain rfl : cm = cm2 := Except.ok.inj hf1
  all_goals obtain rfl : tr = tr2 := Except.ok.inj hf2
  · exact ⟨fun _ => hE, fun hnlt => absurd hb hnlt⟩
  all_goals refine ⟨fun hlt => absurd hlt hb, fun hnlt msg hmsg => ?_⟩
  all_goals rw [hE] at hmsg
  all_goals simp at hmsg

/-- Claim C3: with the connection established and both rent queries
answered, the run rejects with an insufficient-funds error exactly when
the queried balance is strictly below the computed total, the rejection
message is the itemized one built from the breakdown, and that message
enumerates every cost component together with the required total. -/
theorem c3_balance_guard (env : Env) (d : TokenData) (ep : String) (cm tr : ℕ)
    (he : env.endpoint = some ep) (hv : env.versionOk = true)
    (hm : env.mintRentQ = Except.ok cm) (ht : env.tokenRentQ = Except.ok tr) :
    ((∃ msg, (createTokenRun env d).2 = Except.error (Err.insufficientFunds msg))
        ↔ (env.balance : ℚ) < costTotalQ (serviceFeeQ d.authorities (truthy d.creatorName)) cm tr)
    ∧ (∀ msg, (createTokenRun env d).2 = Except.error (Err.insufficientFunds msg) →
        msg = insufficientMessage (serviceFeeQ d.authorities (truthy d.creatorName))
          (max cm MIN_MINT_RENT_LAMPORTS) tr
          (costTotalQ (serviceFeeQ d.authorities (truthy d.creatorName)) cm tr))
    ∧ (∀ fee mr tar tot,
        containsSeg "- Service fee: " (insufficientMessage fee mr tar tot)
        ∧ containsSeg "- Mint account rent: " (insufficientMessage fee mr tar tot)
        ∧ containsSeg "- Token account rent: " (insufficientMessage fee mr tar tot)
        ∧ containsSeg "- Metadata rent: " (insufficientMessage fee mr tar tot)
        ∧ containsSeg "- Transaction fees: " (insufficientMessage fee mr tar tot)
        ∧ containsSeg (fmt4 (qdivNat tot (10^9))) (insufficientMessage fee mr tar tot)) := by
  obtain ⟨hpos, hneg⟩ := guard_characterization env d ep cm tr he hv hm ht
  refine ⟨⟨?_, ?_⟩, ?_, fun fee mr tar tot => insufficientMessage_parts fee mr tar tot⟩
  · rintro ⟨msg, hmsg⟩
    by_contra hnlt
    exact hneg hnlt msg hmsg
  · intro hlt
    exact ⟨_, by rw [hpos hlt]⟩
  · intro msg hmsg
    by_cases hlt : ((env.balance : ℚ)
        < costTotalQ (serviceFeeQ d.authorities (truthy d.creatorName)) cm tr)
    · rw [hpos hlt] at hmsg
      exact (Err.insufficientFunds.inj (Except.error.inj hmsg)).symm
    · exact absurd hmsg (hneg hlt msg)


/-- Claim C8: in every execution, a mint-to instruction only ever
appears after the initialization instruction of the same mint, across
the flattened submission-ordered instruction stream. -/
theorem c8_init_before_mint_to (env : Env) (d : TokenData) :
    initBeforeMintTo (allInstrs env d) = true := by
  rcases run_cases env d with
      ⟨-, hE⟩ | ⟨-, hE⟩ | ⟨msg, -, hE⟩ | ⟨cm, msg, -, -, hE⟩ |
      ⟨cm, tr, -, -, -, hE⟩ | ⟨cm, tr, e, -, -, -, -, hE⟩ |
      ⟨cm, tr, e, -, -, -, -, -, hE⟩ | ⟨cm, tr, e, -, -, -, -, -, -, hE⟩ |
      ⟨cm, tr, -, -, -, -, -, -, -, hE⟩ | ⟨cm, tr, -, -, -, -, -, -, -, -, hE⟩ |
      ⟨cm, tr, -, -, -, -, -, -, -, -, -, hE⟩ |
      ⟨cm, tr, -, -, -, -, -, -, -, -, -, -, hE⟩ |
      ⟨cm, tr, sn, -, -, -, -, -, -, -, -, -, -, -, hE⟩ |
      ⟨cm, tr, sn, -, -, -, -, -, -, -, -, -, -, -, hE⟩
  all_goals simp only [allInstrs, hE]
  all_goals clear hE
  all_goals cases env.ataExists
  all_goals rfl

/-- Every amount carried by a mint-to instruction of a run is the
parsed comma-stripped supply. -/
theorem mintToAmounts_char (env : Env) (d : TokenData) (amt : ℤ)
    (h : amt ∈ mintToAmounts env d) :
    parseIntJS (stripCommas d.supply) = some amt := by
  rcases run_cases env d with
      ⟨-, hE⟩ | ⟨-, hE⟩ | ⟨msg, -, hE⟩ | ⟨cm, msg, -, -, hE⟩ |
      ⟨cm, tr, -, -, -, hE⟩ | ⟨cm, tr, e, -, -, -, -, hE⟩ |
      ⟨cm, tr, e, -, -, -, -, -, hE⟩ | ⟨cm, tr, e, -, -, -, -, -, -, hE⟩ |
      ⟨cm, tr, -, -, -, -, -, -, -, hE⟩ | ⟨cm, tr, -, -, -, -, -, -, -, -, hE⟩ |
      ⟨cm, tr, -, -, -, -, -, -, -, -, -, hE⟩ |
      ⟨cm, tr, -, -, -, -, -, -, -, -, -, -, hE⟩ |
      ⟨cm, tr, sn, -, -, -, -, -, -, -, -, -, hp, -, hE⟩ |
      ⟨cm, tr, sn, -, -, -, -, -, -, -, -, -, hp, -, hE⟩
  all_goals simp only [mintToAmounts, allInstrs, hE] at h
  all_goals clear hE
  all_goals simp [successTxs, ataTxsOf, feeTxOf, fundMetaTxOf, fundMintTxOf, createMintTxOf,
    metaTxOf, mintToTxOf, createMetadataInstr, and_assoc] at h
  all_goals rw [h]
  all_goals exact hp


/-- The list of minted amounts of a run does not depend on the request's
decimals field: the control path is selected by environment outcomes,
the balance comparison and the supply string only, and the decimals
value only enters the initialize-mint instruction, which carries no
amount. -/
theorem run_decimals_irrelevant (env : Env) (n s su wa : String)
    (au : Option Authorities) (cn : Option String) (dec₁ dec₂ : ℤ) :
    mintToAmounts env ⟨n, s, su, dec₁, wa, au, cn⟩
      = mintToAmounts env ⟨n, s, su, dec₂, wa, au, cn⟩ := by
  obtain ⟨ep, vok, mrq, trq, bal, fce, mf1, mf2, cmo, mio, atae, atao, mto⟩ := env
  cases ep with
  | none => rfl
  | some ep =>
  cases vok with
  | false => rfl
  | true =>
  cases mrq with
  | error m => rfl
  | ok cm =>
  cases trq with
  | error m => rfl
  | ok tr =>
  by_cases hb : ((bal : ℚ) < costTotalQ (serviceFeeQ au (truthy cn)) cm tr)
  · simp [mintToAmounts, allInstrs, createTokenRun, getFormattedEndpoint, hb]
  cases fce with
  | some e => simp [mintToAmounts, allInstrs, createTokenRun, getFormattedEndpoint, hb]
  | none =>
  cases mf1 with
  | some e => simp [mintToAmounts, allInstrs, createTokenRun, getFormattedEndpoint, hb,
      feeTxOf, fundMetaTxOf]
  | none =>
  cases mf2 with
  | some e => simp [mintToAmounts, allInstrs, createTokenRun, getFormattedEndpoint, hb,
      feeTxOf, fundMetaTxOf, fundMintTxOf]
  | none =>
  cases cmo with
  | false => simp [mintToAmounts, allInstrs, createTokenRun, getFormattedEndpoint, hb,
      feeTxOf, fundMetaTxOf, fundMintTxOf, createMintTxOf]
  | true =>
  cases mio with
  | false => simp [mintToAmounts, allInstrs, createTokenRun, getFormattedEndpoint, hb,
      feeTxOf, fundMetaTxOf, fundMintTxOf, createMintTxOf, metaTxOf, createMetadataInstr]
  | true =>
  cases atao with
  | false => cases atae <;>
      simp [mintToAmounts, allInstrs, createTokenRun, getFormattedEndpoint, hb,
        feeTxOf, fundMetaTxOf, fundMintTxOf, createMintTxOf, metaTxOf, createMetadataInstr,
        ataTxsOf]
  | true =>
  cases hp : parseIntJS (stripCommas su) with
  | none => cases atae <;>
      simp [mintToAmounts, allInstrs, createTokenRun, getFormattedEndpoint, hb, hp,
        feeTxOf, fundMetaTxOf, fundMintTxOf, createMintTxOf, metaTxOf, createMetadataInstr,
        ataTxsOf]
  | some sn =>
  cases mto with
  | false => cases atae <;>
      simp [mintToAmounts, allInstrs, createTokenRun, getFormattedEndpoint, hb, hp,
        successTxs, feeTxOf, fundMetaTxOf, fundMintTxOf, createMintTxOf, metaTxOf,
        createMetadataInstr, ataTxsOf, mintToTxOf]
  | true => cases atae <;>
      simp [mintToAmounts, allInstrs, createTokenRun, getFormattedEndpoint, hb, hp,
        successTxs, feeTxOf, fundMetaTxOf, fundMintTxOf, createMintTxOf, metaTxOf,
        createMetadataInstr, ataTxsOf, mintToTxOf]


/-- Claim C2 counterexample: in a successful run with the mainnet rent
answers, the wallet's total debits differ from the up-front total — the
difference is exactly the token-account rent, which the
spl-token calls pay from the mint keypair, not from the wallet. -/
theorem c2_counterexample :
    (createTokenRun envOk dataBase).2
        = Except.ok ⟨true, PK.gen 1, getMetadataPDA (PK.gen 0), serviceFeeQ none false, 0⟩
    ∧ walletDebits (createTokenRun envOk dataBase).1
        ≠ costTotalQ (serviceFeeQ none false) 2461600 2039280
    ∧ qsub (costTotalQ (serviceFeeQ none false) 2461600 2039280)
        (walletDebits (createTokenRun envOk dataBase).1) = ((2039280 : ℕ) : ℚ) := by
  refine ⟨by decide, by decide, by decide⟩

/-- Claim C2 (corrected): in every successful run the total lamports
debited from the requester's wallet equal the up-front total minus the
token-account rent: the service fee, the metadata funding, the clamped
mint funding and the four network fees are wallet-paid, but the
associated-token-account rent is paid by the mint keypair. -/
theorem c2_wallet_debits (env : Env) (d : TokenData) (r : TokenResult) (cm tr : ℕ)
    (hm : env.mintRentQ = Except.ok cm) (ht : env.tokenRentQ = Except.ok tr)
    (h : (createTokenRun env d).2 = Except.ok r) :
    walletDebits (createTokenRun env d).1
      = qsub (costTotalQ (serviceFeeQ d.authorities (truthy d.creatorName)) cm tr)
          ((tr : ℕ) : ℚ) := by
  obtain ⟨cm2, tr2, sn, hcm, htr, hb, hp, hr, hTxs⟩ := run_ok env d r h
  rw [hm] at hcm
  rw [ht] at htr
  obtain rfl : cm = cm2 := Except.ok.inj hcm
  obtain rfl : tr = tr2 := Except.ok.inj htr
  rw [hTxs]
  cases hq : env.ataExists <;>
    simp [successTxs, walletDebits, qsum_eq, txWalletDebit, qadd_eq, qsub_eq, qmul_eq,
      instrWalletDebit, feeTxOf, fundMetaTxOf, fundMintTxOf, createMintTxOf, metaTxOf,
      ataTxsOf, mintToTxOf, createMetadataInstr, costTotalQ, freezeRequested,
      NUM_TRANSACTIONS] <;>
    push_cast <;> ring_nf

/-- Claim C2 witness: the wallet-debit identity at the mainnet
environment and the plain request. -/
theorem c2_wallet_debits_witness :
    envOk.mintRentQ = Except.ok 2461600 ∧ envOk.tokenRentQ = Except.ok 2039280
    ∧ (createTokenRun envOk dataBase).2
        = Except.ok ⟨true, PK.gen 1, getMetadataPDA (PK.gen 0), serviceFeeQ none false, 0⟩
    ∧ walletDebits (createTokenRun envOk dataBase).1
        = qsub (costTotalQ (serviceFeeQ dataBase.authorities (truthy dataBase.creatorName))
            2461600 2039280) ((2039280 : ℕ) : ℚ) :=
  ⟨rfl, rfl, by decide,
    c2_wallet_debits envOk dataBase
      ⟨true, PK.gen 1, getMetadataPDA (PK.gen 0), serviceFeeQ none false, 0⟩
      2461600 2039280 rfl rfl (by decide)⟩

/-- Claim C3 witness: the balance-guard equivalence at the 1000-lamport
environment and the plain request. -/
theorem c3_balance_guard_witness :
    envLow.endpoint = some "node.example" ∧ envLow.versionOk = true
    ∧ envLow.mintRentQ = Except.ok 2461600 ∧ envLow.tokenRentQ = Except.ok 2039280
    ∧ ((∃ msg, (createTokenRun envLow dataBase).2 = Except.error (Err.insufficientFunds msg))
        ↔ (envLow.balance : ℚ)
            < costTotalQ (serviceFeeQ dataBase.authorities (truthy dataBase.creatorName))
                2461600 2039280) :=
  ⟨rfl, rfl, rfl, rfl,
    (c3_balance_guard envLow dataBase "node.example" 2461600 2039280 rfl rfl rfl rfl).1⟩

/-- Claim C4 counterexample: a request with decimals 15 — outside the
documented [0, 9] range — is not rejected: the run completes
successfully and the initialize-mint instruction it submits carries
decimals 15 verbatim. -/
theorem c4_counterexample :
    dataDec15.decimals = 15
    ∧ (createTokenRun envOk dataDec15).2
        = Except.ok ⟨true, PK.gen 1, getMetadataPDA (PK.gen 0), serviceFeeQ none false, 0⟩
    ∧ Instr.initializeMint (PK.gen 1) 15 PK.wallet none ∈ allInstrs envOk dataDec15 := by
  refine ⟨rfl, by decide, by decide⟩

/-- Claim C4 (corrected): the orchestrator performs no validation of the
decimals field — every initialize-mint instruction of every run carries
the request's decimals verbatim, and the out-of-range request with
decimals 15 completes successfully with a nonempty transaction list.
The only [0, 9] constraints live in the UI input attributes. -/
theorem c4_no_decimals_validation :
    (∀ (env : Env) (d : TokenData) (m auth : PK) (fa : Option PK) (dec : ℤ),
        Instr.initializeMint m dec auth fa ∈ allInstrs env d → dec = d.decimals)
    ∧ (createTokenRun envOk dataDec15).2
        = Except.ok ⟨true, PK.gen 1, getMetadataPDA (PK.gen 0), serviceFeeQ none false, 0⟩
    ∧ (createTokenRun envOk dataDec15).1 ≠ [] := by
  refine ⟨?_, by decide, by decide⟩
  intro env d m auth fa dec h
  rcases run_cases env d with
      ⟨-, hE⟩ | ⟨-, hE⟩ | ⟨msg, -, hE⟩ | ⟨cm, msg, -, -, hE⟩ |
      ⟨cm, tr, -, -, -, hE⟩ | ⟨cm, tr, e, -, -, -, -, hE⟩ |
      ⟨cm, tr, e, -, -, -, -, -, hE⟩ | ⟨cm, tr, e, -, -, -, -, -, -, hE⟩ |
      ⟨cm, tr, -, -, -, -, -, -, -, hE⟩ | ⟨cm, tr, -, -, -, -, -, -, -, -, hE⟩ |
      ⟨cm, tr, -, -, -, -, -, -, -, -, -, hE⟩ |
      ⟨cm, tr, -, -, -, -, -, -, -, -, -, -, hE⟩ |
      ⟨cm, tr, sn, -, -, -, -, -, -, -, -, -, -, -, hE⟩ |
      ⟨cm, tr, sn, -, -, -, -, -, -, -, -, -, -, -, hE⟩
  all_goals simp only [allInstrs, hE] at h
  all_goals clear hE
  all_goals cases hq : env.ataExists
  all_goals cases hfr : freezeRequested d
  all_goals simp [successTxs, ataTxsOf, feeTxOf, fundMetaTxOf, fundMintTxOf, createMintTxOf,
    metaTxOf, mintToTxOf, createMetadataInstr, hq, hfr] at h
  all_goals tauto

/-- Claim C5 counterexample: with the mint-rent query answering 1000
lamports, the run funds the mint account with the hardcoded minimum
2461600 instead, and the metadata funding is the hardcoded 3410880 that
no query produced — the totals are not derived from live-queried values
only. -/
theorem c5_counterexample :
    envRentSmall.mintRentQ = Except.ok 1000
    ∧ fundMintTxOf 1000 ∈ (createTokenRun envRentSmall dataBase).1
    ∧ fundMintTxOf 1000
        = ⟨PK.wallet, [Instr.transfer PK.wallet (PK.gen 0) ((2461600 : ℕ) : ℚ)]⟩
    ∧ fundMetaTxOf ∈ (createTokenRun envRentSmall dataBase).1
    ∧ fundMetaTxOf
        = ⟨PK.wallet,
            [Instr.transfer PK.wallet (getMetadataPDA (PK.gen 0)) ((3410880 : ℕ) : ℚ)]⟩ := by
  refine ⟨rfl, by decide, by decide, by decide, by decide⟩

/-- Claim C5 (corrected): a failed rent-exemption query propagates as an
RPC error with no transactions submitted; but the cost total is not
derived from live-queried values only — the metadata component is the
hardcoded `METADATA_REQUIRED_LAMPORTS` and the mint component is the
queried value clamped below by the hardcoded
`MIN_MINT_RENT_LAMPORTS`. -/
theorem c5_rent_failure_propagates (env : Env) (d : TokenData) (ep msg : String)
    (he : env.endpoint = some ep) (hv : env.versionOk = true)
    (hm : env.mintRentQ = Except.error msg) :
    createTokenRun env d = ([], Except.error (Err.rpc msg))
    ∧ (∀ (fee : ℚ) (cm tr : ℕ),
        costTotalQ fee cm tr
          = fee * ((10^9 : ℕ) : ℚ) + ((max cm MIN_MINT_RENT_LAMPORTS : ℕ) : ℚ)
            + (tr : ℚ) + (METADATA_REQUIRED_LAMPORTS : ℚ)
            + ((TX_FEE * NUM_TRANSACTIONS : ℕ) : ℚ)) := by
  refine ⟨?_, fun fee cm tr => by simp [costTotalQ, qadd_eq, qmul_eq]⟩
  rcases run_cases env d with
      ⟨hf, -⟩ | ⟨hf, -⟩ | ⟨msg2, hf, hE⟩ | ⟨cm, m2, hf, -, -⟩ |
      ⟨cm, tr, hf, -, -, -⟩ | ⟨cm, tr, e, hf, -, -, -, -⟩ |
      ⟨cm, tr, e, hf, -, -, -, -, -⟩ | ⟨cm, tr, e, hf, -, -, -, -, -, -⟩ |
      ⟨cm, tr, hf, -, -, -, -, -, -, -⟩ | ⟨cm, tr, hf, -, -, -, -, -, -, -, -⟩ |
      ⟨cm, tr, hf, -, -, -, -, -, -, -, -, -⟩ |
      ⟨cm, tr, hf, -, -, -, -, -, -, -, -, -, -⟩ |
      ⟨cm, tr, sn, hf, -, -, -, -, -, -, -, -, -, -, -⟩ |
      ⟨cm, tr, sn, hf, -, -, -, -, -, -, -, -, -, -, -⟩
  · rw [he] at hf; simp at hf
  · rw [hv] at hf; simp at hf
  · rw [hm] at hf
    obtain rfl : msg = msg2 := Except.error.inj hf
    exact hE
  all_goals rw [hm] at hf
  all_goals simp at hf

/-- Claim C5 witness: the propagation at the environment whose mint-rent
query is rejected. -/
theorem c5_witness :
    envRentFail.endpoint = some "node.example" ∧ envRentFail.versionOk = true
    ∧ envRentFail.mintRentQ = Except.error "rpc unreachable"
    ∧ createTokenRun envRentFail dataBase = ([], Except.error (Err.rpc "rpc unreachable")) :=
  ⟨rfl, rfl, rfl,
    (c5_rent_failure_propagates envRentFail dataBase "node.example" "rpc unreachable"
      rfl rfl rfl).1⟩

/-- Claim C6 counterexample: in the authoritative revision the fee is
converted with `serviceFee * 1e9` unrounded; under binary64 semantics
the one-authority fee is not `0.15` but `0.15000000000000002`, and the
lamport amount is the non-integer `150000000.0000000298...` — there is
no rounding to a fixed number of decimal places before the
conversion. -/
theorem c6_counterexample :
    serviceFee64 (some ⟨true, false, false⟩) false
        = mkRat 1351079888211149 9007199254740992
    ∧ serviceFeeInLamports64 (some ⟨true, false, false⟩) false
        = mkRat 5033164800000001 33554432
    ∧ (serviceFeeInLamports64 (some ⟨true, false, false⟩) false).den ≠ 1 := by
  refine ⟨by decide, by decide, by decide⟩

/-- Claim C6 (corrected): the `src/unnamed/part_013` revision — the one
that rounds — converts the fee through `toFixed(2)` and `Math.floor`,
and for every authority/creator combination the resulting lamport
amount is an exact integer equal to the exact-rational fee times
`10^9`; the authoritative revision multiplies the unrounded binary64
fee (see the counterexample). -/
theorem c6_fee_rounding :
    ∀ (auth : Option Authorities) (creator : Bool),
      part13FeeLamports auth creator = qmul (serviceFeeQ auth creator) ((10^9 : ℕ) : ℚ)
      ∧ (part13FeeLamports auth creator).den = 1 := by
  intro auth creator
  rcases auth with - | ⟨b1, b2, b3⟩
  · cases creator <;> exact ⟨by decide, by decide⟩
  · cases b1 <;> cases b2 <;> cases b3 <;> cases creator <;> exact ⟨by decide, by decide⟩

/-- Claim C7: comma stripping removes every comma and only commas (it is
the filter that keeps every non-comma character), the comma-stripped
supply string parses exactly, and the run with supply `"1,000,000"`
mints exactly `1000000` base units and succeeds. -/
theorem c7_supply_parsing :
    (∀ s : String, (stripCommas s).data = s.data.filter (fun c => c ≠ ','))
    ∧ stripCommas "1,000,000" = "1000000"
    ∧ parseIntJS (stripCommas "1,000,000") = some 1000000
    ∧ mintToAmounts envOk dataComma = [1000000]
    ∧ (createTokenRun envOk dataComma).2
        = Except.ok ⟨true, PK.gen 1, getMetadataPDA (PK.gen 0), serviceFeeQ none false, 0⟩ := by
  refine ⟨fun s => rfl, by decide, by decide, by decide, by decide⟩

/-- Claim C9 (code bug): the submitted metadata instruction's metadata
account is the PDA of the metadata-program id and the `mintKeypair`
public key, but the mint actually created — and recorded in the result
— is the fresh keypair generated inside `createMint` (the source passes
`undefined` for the keypair argument), whose PDA differs; the name,
symbol and creator fields are populated from the request while the URI
is always the empty string. -/
theorem c9_metadata_pda_mismatch :
    (allInstrs envOk dataCreator)[6]?
      = some (Instr.metadataV3 (getMetadataPDA (PK.gen 0)) (PK.gen 1) PK.wallet PK.wallet
          PK.wallet "Test" "TST" "" (some (PK.wallet, false, 100)))
    ∧ (createTokenRun envOk dataCreator).2
        = Except.ok ⟨true, PK.gen 1, getMetadataPDA (PK.gen 0), serviceFeeQ none true, 0⟩
    ∧ getMetadataPDA (PK.gen 0) ≠ getMetadataPDA (PK.gen 1) := by
  refine ⟨by decide, by decide, by decide⟩

/-- Claim C10: every amount a run passes to a mint-to instruction is the
parsed comma-stripped supply taken directly as base units; the minted
amounts never depend on the decimals field; and the plain request with
supply `"1000"` and decimals `9` mints exactly `1000` base units. -/
theorem c10_no_decimal_scaling :
    (∀ (env : Env) (d : TokenData) (amt : ℤ), amt ∈ mintToAmounts env d →
        parseIntJS (stripCommas d.supply) = some amt)
    ∧ (∀ (env : Env) (n s su wa : String) (au : Option Authorities)
        (cn : Option String) (dec₁ dec₂ : ℤ),
          mintToAmounts env ⟨n, s, su, dec₁, wa, au, cn⟩
            = mintToAmounts env ⟨n, s, su, dec₂, wa, au, cn⟩)
    ∧ mintToAmounts envOk dataBase = [1000]
    ∧ dataBase.decimals = 9 := by
  refine ⟨fun env d amt h => mintToAmounts_char env d amt h,
    fun env n s su wa au cn dec₁ dec₂ => run_decimals_irrelevant env n s su wa au cn dec₁ dec₂,
    by decide, rfl⟩

end TokenizeFun
